import Mathlib

/-!
Verification of the realtime market-radar client connection manager
(`useMarketRadarWebSocket` in `src/frontend/app/chat/page.tsx`).

The hook is embedded shallowly as an explicit state machine:

* `HookState` collects the React state cells (`data`, `isConnected`,
  `isLoading`, `error`, `lastUpdate`) together with the mutable refs
  (`wsRef`, `reconnectTimeoutRef` as the boolean `timerPending`,
  `reconnectAttemptsRef`, `mountedRef`).  Two bookkeeping fields record the
  transport objects the environment sees: `nextWsId` is the identity that
  the next `new WebSocket(...)` call receives, and `liveTransports` lists
  the transports that have been constructed and not yet closed.
* `Frame` is the outcome of `JSON.parse` on one inbound text frame, at the
  granularity the handler distinguishes: a frame whose parse throws
  (`invalid`), a `market_radar_update` frame with a `data` object and a
  string timestamp (`update`), a `market_radar_update` frame with a `data`
  object but no `timestamp` member (`updateNoTimestamp`, the handler then
  stores undefined as the last-update time), a `market_radar_update` frame
  whose `data` member is absent so that reading `message.data.snapshot`
  throws inside the guarded block (`updateBadData`), an `error` frame with a
  string `message` member (`serverError`), an `error` frame without one
  (`serverErrorNoMsg`, the handler then stores undefined in the error
  state), and any other successfully parsed object (`other`).  The handler
  dispatches on the `type` discriminant alone, so the off-shape frames of
  a recognised type still run the corresponding branch.  Facet payloads are
  abstracted to `Option Nat` values, an absent facet member read as
  undefined being identified with null: the claims concern only presence
  (null versus non-null) and wholesale propagation of decoded objects,
  never the fields inside a facet.
* Each transport or timer callback of the hook becomes one function on
  `HookState`, transcribed branch by branch from the source, and `step`
  dispatches the events the runtime can deliver: the mount effect body,
  an event fired on a given websocket object, the reconnect timer firing,
  and the effect cleanup (teardown).  Exceptions inside the `onmessage`
  handler are modelled by the corresponding `Frame` constructors mapping to
  the identity, matching the `try/catch` that swallows them.
-/

namespace CryptoSage
namespace MarketRadarWS

/-- Source constant `RECONNECT_DELAY = 3000` (milliseconds). -/
def RECONNECT_DELAY : Nat := 3000

/-- Source constant `MAX_RECONNECT_ATTEMPTS = 5`. -/
def MAX_RECONNECT_ATTEMPTS : Nat := 5

/-- Source constant `WS_URL` (default branch of the env fallback). -/
def WS_URL : String := "ws://localhost:8000"

/-- Error string set by the `ws.onerror` handler. -/
def connectionErrorMsg : String := "WebSocket connection error"

/-- Error string set by the `ws.onclose` handler once the reconnect budget
is exhausted. -/
def exhaustedErrorMsg : String :=
  "Failed to connect after multiple attempts. Please refresh the page."

/-- Error string set by the `catch` branch of `connect` when the transport
constructor throws. -/
def connectFailedMsg : String := "Failed to establish WebSocket connection"

/-- The `MarketRadarData` aggregate: four independently nullable facets.
Facet payloads are abstracted to `Nat` identities of decoded objects. -/
structure MarketRadarData where
  snapshot : Option Nat
  anomalies : Option Nat
  tempo : Option Nat
  timeline : Option Nat
deriving DecidableEq, Repr

/-- Initial `useState` value of `data`: every facet is null. -/
def initialData : MarketRadarData :=
  { snapshot := none, anomalies := none, tempo := none, timeline := none }

/-- Outcome of `JSON.parse` on one inbound text frame, at the granularity
the `onmessage` handler distinguishes (see the file docstring).  The
handler branches on the `type` member alone, so a frame of a recognised
type whose other members are off-shape still runs that branch:
`updateNoTimestamp` is an update-typed frame with a `data` object but no
`timestamp` member, and `serverErrorNoMsg` is an error-typed frame with no
`message` member, the missing member being read as undefined. -/
inductive Frame
  | invalid
  | update (d : MarketRadarData) (timestamp : String)
  | updateNoTimestamp (d : MarketRadarData)
  | updateBadData
  | serverError (message : String)
  | serverErrorNoMsg
  | other
deriving DecidableEq, Repr

/-- The combined mutable state of one hook instance: React state cells,
refs, and the bookkeeping of transport objects visible to the runtime. -/
structure HookState where
  data : MarketRadarData
  isConnected : Bool
  isLoading : Bool
  error : Option String
  lastUpdate : Option String
  wsRef : Option Nat
  timerPending : Bool
  reconnectAttempts : Nat
  mounted : Bool
  nextWsId : Nat
  liveTransports : List Nat
deriving DecidableEq, Repr

/-- Initial hook state: matches the `useState`/`useRef` initialisers
(`data` all null, `isConnected=false`, `isLoading=true`, `error=null`,
`lastUpdate=null`, `wsRef=null`, no timer, zero attempts, `mountedRef`
initialised to `true`), before any transport exists. -/
def initialState : HookState :=
  { data := initialData
    isConnected := false
    isLoading := true
    error := none
    lastUpdate := none
    wsRef := none
    timerPending := false
    reconnectAttempts := 0
    mounted := true
    nextWsId := 0
    liveTransports := [] }

/-- The `connect` callback (success path): returns early when
`mountedRef.current` is false; otherwise constructs a new `WebSocket` and
stores it in `wsRef.current`.  The previous transport, if any, is neither
closed nor cleared. -/
def connect (s : HookState) : HookState :=
  if s.mounted = false then s
  else
    { s with
      wsRef := some s.nextWsId
      nextWsId := s.nextWsId + 1
      liveTransports := s.nextWsId :: s.liveTransports }

/-- The `catch` branch of `connect`: the transport constructor threw. -/
def connectCatch (s : HookState) : HookState :=
  { s with error := some connectFailedMsg, isLoading := false }

/-- The `ws.onopen` handler: sets `isConnected`, clears `isLoading` and
`error`, resets the attempt counter. -/
def handleOpen (s : HookState) : HookState :=
  { s with
    isConnected := true
    isLoading := false
    error := none
    reconnectAttempts := 0 }

/-- The `ws.onmessage` handler: inside `try`, an update-typed frame with a
`data` object replaces the whole `data` value with the facets of the frame,
stores `message.timestamp` — undefined when the member is missing — as the
last-update time, and clears `error`; an error-typed frame stores
`message.message` in the error state, which is undefined when the member is
missing; a parse throw, a throwing `data` access, and an unrecognised type
leave the state untouched, since the `catch` only logs. -/
def handleMessage (f : Frame) (s : HookState) : HookState :=
  match f with
  | .update d ts => { s with data := d, lastUpdate := some ts, error := none }
  | .updateNoTimestamp d =>
    { s with data := d, lastUpdate := none, error := none }
  | .serverError m => { s with error := some m }
  | .serverErrorNoMsg => { s with error := none }
  | .invalid => s
  | .updateBadData => s
  | .other => s

/-- The `ws.onerror` handler: stores a generic connection error string. -/
def handleError (s : HookState) : HookState :=
  { s with error := some connectionErrorMsg }

/-- The `ws.onclose` handler for the websocket object `w` (the event also
means `w` itself has closed): clears `isConnected` and `wsRef`, then either
increments the attempt counter and schedules the reconnect timer (when
mounted and under the cap), or, when the cap is reached, stores the
persistent exhaustion error and clears `isLoading`. -/
def handleClose (w : Nat) (s : HookState) : HookState :=
  let s1 := { s with
    isConnected := false
    wsRef := none
    liveTransports := s.liveTransports.erase w }
  if s1.mounted = true ∧ s1.reconnectAttempts < MAX_RECONNECT_ATTEMPTS then
    { s1 with
      reconnectAttempts := s1.reconnectAttempts + 1
      timerPending := true }
  else if MAX_RECONNECT_ATTEMPTS ≤ s1.reconnectAttempts then
    { s1 with error := some exhaustedErrorMsg, isLoading := false }
  else s1

/-- The effect cleanup (teardown): sets `mountedRef.current` to false,
cancels the pending reconnect timer, and closes and clears the current
websocket if one is held. -/
def cleanup (s : HookState) : HookState :=
  let s1 := { s with mounted := false, timerPending := false }
  match s1.wsRef with
  | some w =>
    { s1 with wsRef := none, liveTransports := s1.liveTransports.erase w }
  | none => s1

/-- Events a single websocket object can deliver to its handlers. -/
inductive WsEvent
  | opened
  | message (f : Frame)
  | errored
  | closed
deriving DecidableEq, Repr

/-- Events the runtime can deliver to one hook instance: the effect body on
mount (sets `mountedRef` true and calls `connect`), a transport event fired
on websocket object `w`, the reconnect timer firing (calls `connect` when
the timer is still pending), and the effect cleanup. -/
inductive Event
  | mount
  | wsEv (w : Nat) (e : WsEvent)
  | timerFire
  | teardown
deriving DecidableEq, Repr

/-- One step of the hook instance on one delivered event, dispatching to
the handler the source installs.  The transport handlers run their whole
body unconditionally: none of them consults `mountedRef` before mutating
state (only the reconnect-scheduling branch inside `onclose` and the top of
`connect` do). -/
def step (s : HookState) : Event → HookState
  | .mount => connect { s with mounted := true }
  | .wsEv w e =>
    match e with
    | .opened => handleOpen s
    | .message f => handleMessage f s
    | .errored => handleError s
    | .closed => handleClose w s
  | .timerFire =>
    if s.timerPending = true then connect { s with timerPending := false }
    else s
  | .teardown => cleanup s

/-- Runs a list of events from a starting state, in order. -/
def run (s : HookState) (es : List Event) : HookState := es.foldl step s

/-- State after mounting and then suffering `n` consecutive transport
failures, each close event followed by the scheduled reconnect timer
firing.  The websocket object created by the k-th connection attempt has
identity `k`, so the k-th failure is a close event on object `k`. -/
def afterFailures : Nat → HookState
  | 0 => step initialState .mount
  | n + 1 =>
    step (step (afterFailures n) (.wsEv n .closed)) .timerFire

/-- Model of the JavaScript `String.prototype.toUpperCase` for the ASCII
strings used as trading symbols: the simple uppercase mapping applied to
every character. -/
def jsToUpper (s : String) : String := String.mk (s.data.map Char.toUpper)

/-- Model of the JavaScript `String.prototype.endsWith`: the needle is a
suffix of the string. -/
def jsEndsWith (s t : String) : Bool := decide (t.data <:+ s.data)

/-- The `normalizedSymbol` expression in `connect`: the symbol is used
verbatim when its uppercased form ends with USDT, otherwise the USDT suffix
is appended to the original (case preserved). -/
def normalizedSymbol (symbol : String) : String :=
  if jsEndsWith (jsToUpper symbol) "USDT" = true then symbol
  else symbol ++ "USDT"

/-- The `wsUrl` expression in `connect`. -/
def wsUrl (symbol : String) : String :=
  WS_URL ++ "/api/v1/market/radar/ws/" ++ normalizedSymbol symbol

/-- Reduction of `step` on a mount event. -/
theorem step_mount (s : HookState) :
    step s .mount = connect { s with mounted := true } := rfl

/-- Reduction of `step` on an open event. -/
theorem step_opened (s : HookState) (w : Nat) :
    step s (.wsEv w .opened) = handleOpen s := rfl

/-- Reduction of `step` on a message event. -/
theorem step_message (s : HookState) (w : Nat) (f : Frame) :
    step s (.wsEv w (.message f)) = handleMessage f s := rfl

/-- Reduction of `step` on an error event. -/
theorem step_errored (s : HookState) (w : Nat) :
    step s (.wsEv w .errored) = handleError s := rfl

/-- Reduction of `step` on a close event. -/
theorem step_closed (s : HookState) (w : Nat) :
    step s (.wsEv w .closed) = handleClose w s := rfl

/-- Reduction of `step` on the timer event. -/
theorem step_timerFire (s : HookState) :
    step s .timerFire =
      if s.timerPending = true then connect { s with timerPending := false }
      else s := rfl

/-- Reduction of `step` on the teardown event. -/
theorem step_teardown (s : HookState) : step s .teardown = cleanup s := rfl

/-- The `connect` callback never touches the loading flag. -/
theorem connect_isLoading (s : HookState) :
    (connect s).isLoading = s.isLoading := by
  unfold connect
  split <;> rfl

/-- Teardown never touches the loading flag. -/
theorem cleanup_isLoading (s : HookState) :
    (cleanup s).isLoading = s.isLoading := by
  unfold cleanup
  rcases hw : s.wsRef with _ | w <;> simp [hw]

/-- The close handler never sets the loading flag back to true. -/
theorem handleClose_isLoading (w : Nat) (s : HookState)
    (h : s.isLoading = false) : (handleClose w s).isLoading = false := by
  unfold handleClose
  dsimp only
  split
  · exact h
  · split
    · rfl
    · exact h

/-- A live connection that has received one full update: mount, open, then
an update frame carrying all four facets. -/
def liveWithData : HookState :=
  run initialState [.mount, .wsEv 0 .opened,
    .wsEv 0 (.message (.update ⟨some 1, some 2, some 3, some 4⟩ "t1"))]

/-- C1: the claim states that a populated facet is never reset to null by a
later `market_radar_update` frame (merge, not substitution).  This is false
on the code: `onmessage` calls `setData` with exactly the facets carried by
the frame, so after a snapshot has been populated, processing an update
frame whose snapshot member is null sets the facet back to null. -/
theorem C1_counterexample :
    (run initialState [.mount, .wsEv 0 .opened,
      .wsEv 0 (.message (.update ⟨some 1, some 2, some 3, some 4⟩ "t1"))]).data.snapshot
        = some 1 ∧
    (run initialState [.mount, .wsEv 0 .opened,
      .wsEv 0 (.message (.update ⟨some 1, some 2, some 3, some 4⟩ "t1")),
      .wsEv 0 (.message (.update initialData "t2"))]).data.snapshot = none := by
  decide

/-- C1 (amended): each decoded `market_radar_update` frame replaces the
held data wholesale with the facets carried by the frame — substitution,
not merge — so a facet survives non-null only as long as every later update
frame itself carries a non-null value for it. -/
theorem C1_amended (s : HookState) (w : Nat) (d : MarketRadarData)
    (ts : String) :
    (step s (.wsEv w (.message (.update d ts)))).data = d := rfl

/-- C2: the claim states that after exactly 5 consecutive failure/close
events the hook reaches the terminal failed condition and schedules no
further attempt.  This is false on the code: the fifth close event still
finds the attempt counter at 4, below the cap, so it schedules a fifth
reconnect timer and does not set the persistent error. -/
theorem C2_counterexample :
    (step (afterFailures 4) (.wsEv 4 .closed)).timerPending = true ∧
    (step (afterFailures 4) (.wsEv 4 .closed)).error ≠ some exhaustedErrorMsg := by
  decide

/-- C2 (amended): the terminal failed condition is reached after 6
consecutive failures — the initial attempt plus the 5 scheduled reconnects.
The sixth close event sets the persistent error string, clears the loading
flag, schedules no timer, and a subsequent timer event is a no-op, so no
sixth reconnect is ever scheduled. -/
theorem C2_amended :
    (step (afterFailures 5) (.wsEv 5 .closed)).error = some exhaustedErrorMsg ∧
    (step (afterFailures 5) (.wsEv 5 .closed)).isLoading = false ∧
    (step (afterFailures 5) (.wsEv 5 .closed)).timerPending = false ∧
    (step (afterFailures 5) (.wsEv 5 .closed)).reconnectAttempts
      = MAX_RECONNECT_ATTEMPTS ∧
    step (step (afterFailures 5) (.wsEv 5 .closed)) .timerFire
      = step (afterFailures 5) (.wsEv 5 .closed) := by
  decide

/-- C3: the claim states that after teardown no transport callback of the
torn-down instance mutates any snapshot field, every callback checking a
liveness flag first.  This is false on the code: only `connect` and the
reconnect branch of `onclose` consult `mountedRef`; the `onerror` handler
(like `onopen`, `onmessage` and the rest of `onclose`) runs
unconditionally, so a late error event on the closed websocket overwrites
the error field after teardown completed. -/
theorem C3_counterexample :
    (run initialState [.mount, .wsEv 0 .opened, .teardown]).error = none ∧
    (step (run initialState [.mount, .wsEv 0 .opened, .teardown])
      (.wsEv 0 .errored)).error = some connectionErrorMsg := by
  decide

/-- C3 (amended): teardown is idempotent, cancels the pending timer, and
prevents any further connection attempt — after teardown a timer event is a
no-op and a late close event schedules no reconnect and constructs no
transport — but the transport callbacks do not check the liveness flag
before writing snapshot fields, so a late transport event can still mutate
the snapshot (see the counterexample). -/
theorem C3_amended (s : HookState) (w : Nat) :
    cleanup (cleanup s) = cleanup s ∧
    (cleanup s).timerPending = false ∧
    step (cleanup s) .timerFire = cleanup s ∧
    (step (cleanup s) (.wsEv w .closed)).timerPending = false ∧
    (step (cleanup s) (.wsEv w .closed)).nextWsId = s.nextWsId := by
  unfold cleanup step handleClose connect
  cases h : s.wsRef <;>
    simp [MAX_RECONNECT_ATTEMPTS] <;>
    split <;> simp_all

/-- C4: the claim states that calling `connect` on an instance that is
already connecting or open is a no-op creating no new transport, keeping at
most one live transport per instance.  This is false on the code: `connect`
checks only the liveness flag, so called on a live, open instance it
constructs a second websocket and overwrites `wsRef` without closing the
first, leaving two live transports. -/
theorem C4_counterexample :
    (run initialState [.mount, .wsEv 0 .opened]).liveTransports = [0] ∧
    (run initialState [.mount, .wsEv 0 .opened]).isConnected = true ∧
    (connect (run initialState [.mount, .wsEv 0 .opened])).liveTransports
      = [1, 0] ∧
    connect (run initialState [.mount, .wsEv 0 .opened])
      ≠ run initialState [.mount, .wsEv 0 .opened] := by
  decide

/-- C4 (amended): `connect` is a no-op only when the instance has been torn
down; on a mounted instance it unconditionally constructs a fresh transport
and overwrites the reference, without closing any previous transport, so
invoked while a transport is already live it yields two live transports. -/
theorem C4_amended (s : HookState) :
    (s.mounted = false → connect s = s) ∧
    (s.mounted = true →
      (connect s).wsRef = some s.nextWsId ∧
      (connect s).liveTransports = s.nextWsId :: s.liveTransports) := by
  constructor <;> intro h <;> simp [connect, h]

/-- C4 witness: applying the amended theorem at the torn-down initial state
and at a live open state. -/
theorem C4_amended_witness :
    connect (cleanup initialState) = cleanup initialState ∧
    (connect (run initialState [.mount, .wsEv 0 .opened])).liveTransports
      = [1, 0] :=
  ⟨(C4_amended (cleanup initialState)).1 rfl,
   ((C4_amended (run initialState [.mount, .wsEv 0 .opened])).2 rfl).2⟩

/-- C5: the claim states that `isLoading` is never true during any
reconnect attempt.  This is false on the code: when the very first
connection attempt fails before opening, the first reconnect attempt runs
with `isLoading` still true — nothing clears it until an open, exhaustion,
or a constructor failure. -/
theorem C5_counterexample :
    (afterFailures 1).reconnectAttempts = 1 ∧
    (afterFailures 1).wsRef = some 1 ∧
    (afterFailures 1).isConnected = false ∧
    (afterFailures 1).isLoading = true := by
  decide

/-- C5 (amended): `isLoading` starts true, is cleared by the first
successful open, and no event ever sets it back to true — so every
reconnect attempt after a successful open runs with `isLoading` false,
while reconnect attempts before any successful open still run with
`isLoading` true (see the counterexample). -/
theorem C5_amended (s : HookState) (w : Nat) (e : Event) :
    initialState.isLoading = true ∧
    (step s (.wsEv w .opened)).isLoading = false ∧
    (s.isLoading = false → (step s e).isLoading = false) := by
  refine ⟨rfl, rfl, fun h => ?_⟩
  cases e with
  | mount => rw [step_mount, connect_isLoading]; exact h
  | wsEv w2 e2 =>
    cases e2 with
    | opened => rfl
    | message f => cases f <;> exact h
    | errored => exact h
    | closed => exact handleClose_isLoading w2 s h
  | timerFire =>
    rw [step_timerFire]
    split
    · rw [connect_isLoading]; exact h
    · exact h
  | teardown => rw [step_teardown, cleanup_isLoading]; exact h

/-- C5 witness: a close event after a successful open leaves `isLoading`
false. -/
theorem C5_amended_witness :
    (step (step initialState (.wsEv 0 .opened)) (.wsEv 0 .closed)).isLoading
      = false :=
  (C5_amended (step initialState (.wsEv 0 .opened)) 0 (.wsEv 0 .closed)).2.2
    rfl

/-- C6: the claim states that on a subscription key change the accumulated
data is cleared (all facets null) for the new subscription.  This is false
on the code: the cleanup-and-remount sequence touches neither `data` nor
any facet — the React state cell persists across the effect re-run — so the
new subscription starts with the previous facets still populated. -/
theorem C6_counterexample :
    (step (step liveWithData .teardown) .mount).data.snapshot = some 1 ∧
    (step (step liveWithData .teardown) .mount).data ≠ initialData := by
  decide

/-- C6 (amended): on a key change the old effect cleanup runs before the
new effect body, so the old transport is closed and the pending reconnect
timer cancelled before the new transport is constructed — with a single
live old transport, no moment has two live transports — but the accumulated
data is not cleared: it keeps the previous subscription facets until the
first update for the new key. -/
theorem C6_amended (s : HookState) (w : Nat) :
    (step (cleanup s) .mount).data = s.data ∧
    (cleanup s).timerPending = false ∧
    (cleanup s).wsRef = none ∧
    (s.wsRef = some w → s.liveTransports = [w] →
      (cleanup s).liveTransports = []) ∧
    (step (cleanup s) .mount).wsRef = some s.nextWsId := by
  unfold step cleanup connect
  cases h : s.wsRef <;> simp_all [List.erase_cons]

/-- C6 witness: tearing down the live connection leaves no live transport
before the new mount constructs one. -/
theorem C6_amended_witness : (cleanup liveWithData).liveTransports = [] :=
  (C6_amended liveWithData 0).2.2.2.1 rfl rfl

/-- C7: the error field is set by a decoded server error frame and by the
close event that exhausts the reconnect budget, and it is cleared by every
successful open. -/
theorem C7_error_surface (s : HookState) (w : Nat) (m : String) :
    (step s (.wsEv w (.message (.serverError m)))).error = some m ∧
    (MAX_RECONNECT_ATTEMPTS ≤ s.reconnectAttempts →
      (step s (.wsEv w .closed)).error = some exhaustedErrorMsg) ∧
    (step s (.wsEv w .opened)).error = none := by
  refine ⟨rfl, fun h => ?_, rfl⟩
  have hnot : ¬ (s.mounted = true ∧
      s.reconnectAttempts < MAX_RECONNECT_ATTEMPTS) :=
    fun hc => absurd hc.2 (Nat.not_lt.mpr h)
  rw [step_closed]
  unfold handleClose
  dsimp only
  rw [if_neg hnot, if_pos h]

/-- C7 witness: a close event on a state whose attempt counter already
equals the cap surfaces the persistent exhaustion error. -/
theorem C7_error_surface_witness :
    (step { initialState with reconnectAttempts := 5 }
      (.wsEv 0 .closed)).error = some exhaustedErrorMsg :=
  (C7_error_surface { initialState with reconnectAttempts := 5 } 0 "m").2.1
    (by decide)

/-- C8: the claim states that every frame not matching one of the two
recognised message shapes leaves every snapshot field unchanged.  This is
false on the code: the handler dispatches on the `type` discriminant alone,
so a parsed error-typed frame without a string `message` member — outside
both recognised shapes — still runs `setError(message.message)` and
overwrites a previously surfaced error string with undefined. -/
theorem C8_counterexample :
    (run initialState [.mount, .wsEv 0 .opened,
      .wsEv 0 (.message (.serverError "boom"))]).error = some "boom" ∧
    (run initialState [.mount, .wsEv 0 .opened,
      .wsEv 0 (.message (.serverError "boom")),
      .wsEv 0 (.message .serverErrorNoMsg)]).error = none := by
  decide

/-- C8 (amended): no inbound frame ever throws past the message handler,
and a frame that is not valid JSON, an update-typed frame whose `data`
member access throws, and a parsed frame of unrecognised type leave the
hook state exactly unchanged; but shape checking goes no deeper than the
`type` discriminant, so an error-typed frame without a `message` member
still overwrites the error field with undefined, and an update-typed frame
without a `timestamp` member still rewrites `data`, `lastUpdate` and
`error`. -/
theorem C8_amended (s : HookState) (w : Nat) (d : MarketRadarData) :
    step s (.wsEv w (.message .invalid)) = s ∧
    step s (.wsEv w (.message .updateBadData)) = s ∧
    step s (.wsEv w (.message .other)) = s ∧
    (step s (.wsEv w (.message .serverErrorNoMsg))).error = none ∧
    (step s (.wsEv w (.message (.updateNoTimestamp d)))).data = d ∧
    (step s (.wsEv w (.message (.updateNoTimestamp d)))).lastUpdate = none ∧
    (step s (.wsEv w (.message (.updateNoTimestamp d)))).error = none :=
  ⟨rfl, rfl, rfl, rfl, rfl, rfl, rfl⟩

/-- C9: every successfully decoded `market_radar_update` frame clears the
error field and records the frame timestamp as `lastUpdate`, leaving the
connection flag untouched — so a previously surfaced server error string is
cleared by the next successful data update, not only by a new open. -/
theorem C9_update_clears_error (s : HookState) (w : Nat)
    (d : MarketRadarData) (ts : String) :
    (step s (.wsEv w (.message (.update d ts)))).error = none ∧
    (step s (.wsEv w (.message (.update d ts)))).lastUpdate = some ts ∧
    (step s (.wsEv w (.message (.update d ts)))).isConnected = s.isConnected :=
  ⟨rfl, rfl, rfl⟩

/-- C10: the connection URL ends with the symbol used verbatim when the
uppercased symbol ends with USDT, and otherwise with the original symbol
(case preserved) followed by the literal USDT. -/
theorem C10_url_symbol_normalization (sym : String) :
    (jsEndsWith (jsToUpper sym) "USDT" = true → normalizedSymbol sym = sym) ∧
    (jsEndsWith (jsToUpper sym) "USDT" = false →
      normalizedSymbol sym = sym ++ "USDT") ∧
    (normalizedSymbol sym).data <:+ (wsUrl sym).data := by
  refine ⟨fun h => by simp [normalizedSymbol, h], fun h => by
    simp [normalizedSymbol, h], ?_⟩
  show (normalizedSymbol sym).data <:+
    ((WS_URL ++ "/api/v1/market/radar/ws/") ++ normalizedSymbol sym).data
  rw [String.data_append]
  exact List.suffix_append _ _

/-- C10 witness: the lowercase input btc is normalised to btcUSDT, never to
an uppercased form. -/
theorem C10_url_symbol_normalization_witness :
    normalizedSymbol "btc" = "btcUSDT" :=
  (C10_url_symbol_normalization "btc").2.1 (by decide)

end MarketRadarWS
end CryptoSage
